import Mathlib

/-!
Shallow embedding of the Jellyfin TUI selector (src/jvuey22.py): the view
navigator state machine, the row formatter watch markers, the SPDIF
passthrough toggling, the watched-state toggling and the launch tuple
emitter, together with theorems settling the specification claims.

Conventions: Python dicts holding catalog entities become structures whose
fields carry the lookup defaults the code applies (absent key folded into
the default used at each read site); Python None becomes Option.none;
network calls are passed in as an oracle of Except results, the error
value being the exception text; the navigation stack list has its most
recently pushed frame at the head.
-/

namespace Jvuey

/-- Watch-state sub-record, mirroring the UserData dict fields the code
reads, with the Python lookup defaults folded in (Played False,
PlayedPercentage 0, PlayCount 0, UnplayedItemCount 0). -/
structure UserData where
  Played : Bool := false
  PlayedPercentage : ℚ := 0
  PlayCount : ℕ := 0
  UnplayedItemCount : ℕ := 0
deriving DecidableEq, Repr

/-- A catalog entity, as the dict fields the navigator reads. The
series_id field models the key the code injects into season dicts in
_navigate_to_seasons and action_back. -/
structure Item where
  Id : String
  Type_ : String
  Name : Option String := none
  ProductionYear : Option Int := none
  RunTimeTicks : Option Nat := none
  IndexNumber : Option Nat := none
  ChildCount : Option Nat := none
  UserData : Option UserData := none
  SeriesId : Option String := none
  series_id : Option String := none
deriving DecidableEq, Repr

/-- A media stream descriptor; only the fields the modeled control flow
reads (Type and Index) are carried, the remaining fields feed display
strings only. -/
structure MediaStream where
  Type_ : String := ""
  Index : Option Nat := none
deriving DecidableEq, Repr

/-- A media library entry from _fetch_libraries. -/
structure Library where
  Id : String
  Name : Option String := none
  CollectionType : String := ""
deriving DecidableEq, Repr

/-- A navigation stack entry. The Python frames are dicts whose
series/collection keys may be absent or present holding None: the outer
Option is key presence, the inner Option the stored value. -/
structure Frame where
  view : String
  title : String
  series_id : Option (Option String) := none
  series_name : Option (Option String) := none
  collection_id : Option (Option String) := none
  collection_name : Option (Option String) := none
deriving DecidableEq, Repr

/-- Python dict.get(key): an absent key yields None. -/
def frameGet (field : Option (Option String)) : Option String :=
  match field with
  | some v => v
  | none => none

/-- Python dict.get(key, default): the default applies only when the key
is absent, not when it is present holding None. -/
def frameGetD (field : Option (Option String)) (dflt : Option String) : Option String :=
  match field with
  | some v => v
  | none => dflt

/-- Python str of an optional string, as an f-string renders it. -/
def pyStr (o : Option String) : String :=
  match o with
  | some s => s
  | none => "None"

/-- Python str.startswith, as a structural prefix test on the character
lists. -/
def pyStartsWith (s pre : String) : Bool :=
  pre.data.isPrefixOf s.data

/-- Python truthiness of an optional string: None and the empty string
are falsy. -/
def isTruthy (o : Option String) : Bool :=
  match o with
  | some s => s != ""
  | none => false

/-- The watch-marker entries of a display character set (the other
entries of CHARS_UNICODE and CHARS_ASCII feed display strings the claims
do not touch). -/
structure Chars where
  watchedChar : String
  partialChar : String
  unwatchedChar : String
deriving DecidableEq, Repr

/-- The watch markers of CHARS_UNICODE, with the exact characters stored
in the source file. -/
def CHARS_UNICODE : Chars :=
  { watchedChar := "âœ“"
    partialChar := "â—"
    unwatchedChar := "â—‹" }

/-- The watch markers of CHARS_ASCII. -/
def CHARS_ASCII : Chars :=
  { watchedChar := "+", partialChar := "~", unwatchedChar := "-" }

/-- The character set selected once at startup: ASCII in tty mode,
Unicode otherwise (set_tty_mode). -/
def getChars (tty_mode : Bool) : Chars :=
  if tty_mode then CHARS_ASCII else CHARS_UNICODE

/-- The watch-marker selection inside format_item_display
(lines 269-275): Played wins, else partial on positive percentage or
play count, else unwatched. -/
def playedIndicator (chars : Chars) (item : Item) : String :=
  let user_data := item.UserData.getD {}
  if user_data.Played then chars.watchedChar
  else if 0 < user_data.PlayedPercentage ∨ 0 < user_data.PlayCount then chars.partialChar
  else chars.unwatchedChar

/-- The new played state computed by action_toggle_watched
(lines 1784-1790). -/
def newPlayedState (ud : UserData) : Bool :=
  let is_partially_watched :=
    !ud.Played && (decide (0 < ud.PlayedPercentage) || decide (0 < ud.PlayCount))
  !(ud.Played || is_partially_watched)

/-- The optimistic local watch-state patch action_toggle_watched applies
to leaf kinds after the server call succeeds (lines 1800-1805). -/
def toggleWatchedLeafPatch (ud : UserData) : UserData :=
  let new_played := newPlayedState ud
  { ud with
    Played := new_played
    PlayedPercentage := 0
    PlayCount := if new_played then 1 else 0 }

/-- The leaf branch of action_toggle_watched at the item level: a missing
UserData dict is created empty before the three keys are written. -/
def toggle_watched_leaf (item : Item) : Item :=
  { item with UserData := some (toggleWatchedLeafPatch (item.UserData.getD {})) }

/-- The codec identifiers of the canonical SPDIF_CODECS table
(lines 921-927). -/
def SPDIF_CODECS : List String := ["ac3", "eac3", "truehd", "dts", "dts-hd"]

/-- Splitting a character list at commas, keeping empty groups, so that
pySplitComma matches the Python str.split on a comma separator. -/
def splitCommaAux : List Char → List (List Char)
  | [] => [[]]
  | c :: rest =>
      match splitCommaAux rest with
      | [] => [[]]
      | g :: gs => if c = ',' then [] :: g :: gs else (c :: g) :: gs

/-- Python str.split of a string at commas. -/
def pySplitComma (s : String) : List String :=
  (splitCommaAux s.data).map String.mk

/-- Parsing the persisted audio_spdif string as the code does: the empty
string denotes the empty set, otherwise split on commas. -/
def parseSpdif (s : String) : List String :=
  if s == "" then [] else pySplitComma s

/-- _toggle_spdif_codec (lines 1471-1485) as a function of the persisted
string: toggle membership in the parsed set, then rejoin the enabled
codecs in canonical table order. -/
def toggle_spdif_codec (audio_spdif : String) (codec_id : String) : String :=
  let enabled := parseSpdif audio_spdif
  let enabled :=
    if enabled.contains codec_id then enabled.filter (fun c => c != codec_id)
    else codec_id :: enabled
  let ordered := SPDIF_CODECS.filter (fun c => enabled.contains c)
  String.intercalate "," ordered

/-- Modelled from the claim wording: the abstract enabled-set of the five
canonical codecs, as membership booleans in table order. -/
structure SpdifSet where
  ac3 : Bool := false
  eac3 : Bool := false
  truehd : Bool := false
  dts : Bool := false
  dtshd : Bool := false
deriving DecidableEq, Repr

/-- The identifier of the i-th canonical codec. -/
def codecId : Fin 5 → String
  | 0 => "ac3"
  | 1 => "eac3"
  | 2 => "truehd"
  | 3 => "dts"
  | 4 => "dts-hd"

/-- Membership of the i-th canonical codec in the abstract set. -/
def SpdifSet.mem (S : SpdifSet) : Fin 5 → Bool
  | 0 => S.ac3
  | 1 => S.eac3
  | 2 => S.truehd
  | 3 => S.dts
  | 4 => S.dtshd

/-- Toggling the i-th canonical codec in the abstract set. -/
def SpdifSet.toggle (S : SpdifSet) : Fin 5 → SpdifSet
  | 0 => { S with ac3 := !S.ac3 }
  | 1 => { S with eac3 := !S.eac3 }
  | 2 => { S with truehd := !S.truehd }
  | 3 => { S with dts := !S.dts }
  | 4 => { S with dtshd := !S.dtshd }

/-- Modelled from the claim wording: the comma-join of exactly the
enabled codec identifiers, in canonical table order. -/
def spdifJoin (S : SpdifSet) : String :=
  String.intercalate "," (((List.finRange 5).filter S.mem).map codecId)

/-- A sequence of codec toggles applied to a persisted string. -/
def applyToggles (s : String) (ops : List (Fin 5)) : String :=
  ops.foldl (fun acc i => toggle_spdif_codec acc (codecId i)) s

/-- The same toggle sequence on the abstract set. -/
def foldToggles (S : SpdifSet) (ops : List (Fin 5)) : SpdifSet :=
  ops.foldl SpdifSet.toggle S

/-- The contents of the list view. Turning a row into its display string
is a thin adapter; each populate method is modeled as recording the data
it renders from. The device-inspector caches feeding the DRM/audio
settings rows are process-lifetime lookup data no claim touches and are
not carried. -/
inductive RowList where
  | items (xs : List Item)
  | settingsMenu (drm_connector drm_mode audio_device audio_spdif : String)
  | drmMenu (drm_connector drm_mode : String)
  | audioMenu (audio_device : String)
  | spdifMenu (audio_spdif : String)
  | detailRows (item : Item) (streams : List MediaStream)
      (svt sat sst : Option Nat) (ddc ddm dad : Option String)
      (drm_connector drm_mode audio_device : String)
deriving DecidableEq, Repr

/-- The JellyfinSelector state the navigator owns, with the fields set in
init carrying their init defaults. -/
structure NavState where
  server_url : String := ""
  api_key : String := ""
  drm_connector : String := ""
  drm_mode : String := ""
  audio_device : String := ""
  audio_spdif : String := ""
  all_items : List Item := []
  navigation_stack : List Frame := []
  current_view : String := "library"
  title : String := "Jellyfin Selector"
  sub_title : String := ""
  libraries : List Library := []
  current_library_index : Nat := 0
  current_series_id : Option String := none
  current_series_name : Option String := none
  current_season_id : Option String := none
  current_collection_id : Option String := none
  current_collection_name : Option String := none
  detail_item : Option Item := none
  detail_media_streams : List MediaStream := []
  selected_video_track : Option Nat := none
  selected_audio_track : Option Nat := none
  selected_subtitle_track : Option Nat := none
  detail_drm_connector : Option String := none
  detail_drm_mode : Option String := none
  detail_audio_device : Option String := none
  rows : RowList := .items []
deriving DecidableEq, Repr

/-- The outcomes of the Catalog Gateway calls a user intent may issue,
passed as an oracle: the navigator is deterministic given these results.
The library fetch is keyed by the current library index (it derives the
ParentId from it). -/
structure Gateway where
  fetchLibraryItems : Nat → Except String (List Item)
  fetchSeasons : String → Except String (List Item)
  fetchEpisodes : String → String → Except String (List Item)
  fetchCollectionItems : String → Except String (List Item)
  fetchMediaInfo : String → Except String (List MediaStream)

/-- _populate_list (lines 747-762): the list view shows the given entity
rows. -/
def populate_list (xs : List Item) : RowList := .items xs

/-- _populate_settings (lines 787-814): the settings menu renders from
the in-memory playback configuration. -/
def populate_settings (st : NavState) : RowList :=
  .settingsMenu st.drm_connector st.drm_mode st.audio_device st.audio_spdif

/-- _populate_drm_settings (lines 816-867): renders from the DRM part of
the configuration (plus the cached connector list, not carried here). -/
def populate_drm_settings (st : NavState) : RowList :=
  .drmMenu st.drm_connector st.drm_mode

/-- _populate_audio_settings (lines 869-918): renders from the audio
device setting (plus the cached device list, not carried here). -/
def populate_audio_settings (st : NavState) : RowList :=
  .audioMenu st.audio_device

/-- _populate_spdif_settings (lines 929-972): renders from the persisted
SPDIF string. -/
def populate_spdif_settings (st : NavState) : RowList :=
  .spdifMenu st.audio_spdif

/-- _populate_details (lines 1001-1230): records the state the detail
rows are rendered from; an absent detail item leaves the cleared list
view empty. -/
def populate_details (st : NavState) : RowList :=
  match st.detail_item with
  | none => .items []
  | some item =>
      .detailRows item st.detail_media_streams
        st.selected_video_track st.selected_audio_track st.selected_subtitle_track
        st.detail_drm_connector st.detail_drm_mode st.detail_audio_device
        st.drm_connector st.drm_mode st.audio_device

/-- _navigate_to_seasons (lines 1317-1341). The fetch happens before any
state mutation, so a failing fetch changes only the status line. -/
def navigate_to_seasons (gw : Gateway) (st : NavState) (series : Item) : NavState :=
  let series_id := series.Id
  let series_name := series.Name.getD "Unknown"
  match gw.fetchSeasons series_id with
  | .error e => { st with sub_title := "Error loading seasons: " ++ e }
  | .ok seasons =>
    let nav_entry : Frame :=
      if st.current_view == "collection" then
        { view := st.current_view, title := st.title
          collection_id := some st.current_collection_id
          collection_name := some st.current_collection_name }
      else { view := st.current_view, title := st.title }
    let seasons := seasons.map (fun s => { s with series_id := some series_id })
    { st with
      navigation_stack := nav_entry :: st.navigation_stack
      current_view := "seasons"
      current_series_id := some series_id
      current_series_name := some series_name
      rows := populate_list seasons
      title := series_name
      sub_title := toString seasons.length ++ " seasons" }

/-- _navigate_to_episodes (lines 1343-1364). -/
def navigate_to_episodes (gw : Gateway) (st : NavState) (season : Item) : NavState :=
  let season_id := season.Id
  let series_id := season.series_id.getD (season.SeriesId.getD "")
  let season_name := season.Name.getD "Unknown"
  match gw.fetchEpisodes series_id season_id with
  | .error e => { st with sub_title := "Error loading episodes: " ++ e }
  | .ok episodes =>
    let nav_entry : Frame :=
      { view := st.current_view, title := st.title
        series_id := some st.current_series_id
        series_name := some st.current_series_name }
    { st with
      navigation_stack := nav_entry :: st.navigation_stack
      current_view := "episodes"
      current_season_id := some season_id
      rows := populate_list episodes
      title := pyStr st.current_series_name ++ " - " ++ season_name
      sub_title := toString episodes.length ++ " episodes" }

/-- _navigate_to_collection (lines 1366-1382). -/
def navigate_to_collection (gw : Gateway) (st : NavState) (boxset : Item) : NavState :=
  let collection_id := boxset.Id
  let collection_name := boxset.Name.getD "Unknown"
  match gw.fetchCollectionItems collection_id with
  | .error e => { st with sub_title := "Error loading collection: " ++ e }
  | .ok items =>
    { st with
      navigation_stack := { view := st.current_view, title := st.title } :: st.navigation_stack
      current_view := "collection"
      current_collection_id := some collection_id
      current_collection_name := some collection_name
      rows := populate_list items
      title := collection_name
      sub_title := toString items.length ++ " items" }

/-- action_back (lines 1549-1628): pop a frame, restore view and title,
clear the detail state, then re-populate the restored screen, fetching
for the entity screens and re-rendering from memory for the settings
screens. -/
def action_back (gw : Gateway) (st : NavState) : NavState :=
  match st.navigation_stack with
  | [] => st
  | previous :: rest =>
    let st1 : NavState :=
      { st with
        navigation_stack := rest
        current_view := previous.view
        title := previous.title
        detail_item := none
        detail_media_streams := [] }
    if st1.current_view == "library" then
      let st2 :=
        { st1 with
          current_series_id := none
          current_series_name := none
          current_season_id := none
          current_collection_id := none
          current_collection_name := none }
      match gw.fetchLibraryItems st2.current_library_index with
      | .ok items =>
        { st2 with
          all_items := items
          rows := populate_list items
          sub_title := toString items.length ++ " items" }
      | .error e =>
        { st2 with
          rows := populate_list st2.all_items
          sub_title := "Refresh failed: " ++ e }
    else if st1.current_view == "seasons" then
      let series_id := frameGet previous.series_id
      let series_name := frameGet previous.series_name
      if isTruthy series_id then
        let sid := series_id.getD ""
        let st2 :=
          { st1 with
            current_series_id := series_id
            current_series_name := series_name
            current_season_id := none }
        match gw.fetchSeasons sid with
        | .ok seasons =>
          let seasons := seasons.map (fun s => { s with series_id := some sid })
          { st2 with
            rows := populate_list seasons
            sub_title := toString seasons.length ++ " seasons" }
        | .error e => { st2 with sub_title := "Error: " ++ e }
      else st1
    else if st1.current_view == "episodes" then
      let series_id := frameGet previous.series_id
      let series_name := frameGet previous.series_name
      let season_id := st1.current_season_id
      if isTruthy series_id && isTruthy season_id then
        let st2 :=
          { st1 with
            current_series_id := series_id
            current_series_name := series_name }
        match gw.fetchEpisodes (series_id.getD "") (season_id.getD "") with
        | .ok episodes =>
          { st2 with
            rows := populate_list episodes
            sub_title := toString episodes.length ++ " episodes" }
        | .error e => { st2 with sub_title := "Error: " ++ e }
      else st1
    else if st1.current_view == "collection" then
      let collection_id := frameGetD previous.collection_id st1.current_collection_id
      let collection_name := frameGetD previous.collection_name st1.current_collection_name
      if isTruthy collection_id then
        let st2 :=
          { st1 with
            current_collection_id := collection_id
            current_collection_name := collection_name }
        match gw.fetchCollectionItems (collection_id.getD "") with
        | .ok items =>
          { st2 with
            rows := populate_list items
            sub_title := toString items.length ++ " items" }
        | .error e => { st2 with sub_title := "Error: " ++ e }
      else st1
    else if st1.current_view == "settings" then
      { st1 with rows := populate_settings st1, sub_title := "MPV options" }
    else if st1.current_view == "settings_drm" then
      { st1 with rows := populate_drm_settings st1, sub_title := "Select a connector" }
    else if st1.current_view == "settings_audio" then
      { st1 with rows := populate_audio_settings st1, sub_title := "Select an audio device" }
    else if st1.current_view == "settings_spdif" then
      { st1 with rows := populate_spdif_settings st1, sub_title := "Toggle passthrough codecs" }
    else st1

/-- action_cycle_library (lines 1658-1682): no-op only when there are no
libraries; from a non-library screen the stack is emptied and the view
forced back to the library before the index advances and the list is
refetched. -/
def action_cycle_library (gw : Gateway) (st : NavState) : NavState :=
  if st.libraries.isEmpty then st
  else
    let st1 :=
      if st.current_view != "library" then
        { st with
          navigation_stack := []
          current_view := "library"
          current_series_id := none
          current_series_name := none
          current_season_id := none
          title := "Jellyfin Selector" }
      else st
    let st2 :=
      { st1 with
        current_library_index := (st1.current_library_index + 1) % st1.libraries.length }
    match gw.fetchLibraryItems st2.current_library_index with
    | .ok items =>
      let library_name :=
        ((st2.libraries.get? st2.current_library_index).map (fun l => l.Name.getD "Unknown")).getD "Unknown"
      { st2 with
        all_items := items
        rows := populate_list items
        sub_title := library_name ++ ": " ++ toString items.length ++ " items" }
    | .error e => { st2 with sub_title := "Error: " ++ e }

/-- The pre-selection loop of action_show_details (lines 1727-1732): the
first video stream and the first audio stream become the initial
selections. -/
def preselectTracks (streams : List MediaStream) : Option Nat × Option Nat :=
  streams.foldl
    (fun acc stream =>
      if stream.Type_ == "Video" && acc.1.isNone then (stream.Index, acc.2)
      else if stream.Type_ == "Audio" && acc.2.isNone then (acc.1, stream.Index)
      else acc)
    (none, none)

/-- action_show_details (lines 1684-1742). The highlighted row payload is
passed in; none models no highlighted row. On a fetch error the pushed
frame is popped again, and the already-assigned detail item stays. -/
def action_show_details (gw : Gateway) (st : NavState) (highlighted : Option Item) :
    NavState :=
  if pyStartsWith st.current_view "settings" || st.current_view == "details" then st
  else
    match highlighted with
    | none => st
    | some item =>
      if !(item.Type_ == "Movie" || item.Type_ == "Episode") then st
      else if item.Id == "" then st
      else
        let frame : Frame :=
          { view := st.current_view, title := st.title
            series_id := some st.current_series_id
            series_name := some st.current_series_name
            collection_id := some st.current_collection_id
            collection_name := some st.current_collection_name }
        let st1 := { st with navigation_stack := frame :: st.navigation_stack }
        let st2 := { st1 with detail_item := some item }
        match gw.fetchMediaInfo item.Id with
        | .error e =>
          { st2 with
            sub_title := "Error loading details: " ++ e
            navigation_stack := st.navigation_stack }
        | .ok streams =>
          let pre := preselectTracks streams
          let st3 :=
            { st2 with
              detail_media_streams := streams
              selected_video_track := pre.1
              selected_audio_track := pre.2
              selected_subtitle_track := none
              detail_drm_connector := none
              detail_drm_mode := none
              detail_audio_device := none
              current_view := "details"
              title := "Details: " ++ item.Name.getD "Unknown" }
          { st3 with
            rows := populate_details st3
            sub_title := "Select tracks and press Enter to play" }

/-- The tuple handed to the launch boundary on exit. -/
structure LaunchTuple where
  streamReference : String
  drmConnector : String
  drmMode : String
  audioDevice : String
  audioSpdif : String
  trackArgs : List String
deriving DecidableEq, Repr

/-- _play_item (lines 1505-1509): the direct-play launch tuple, with no
track arguments. -/
def play_item (st : NavState) (item : Item) : LaunchTuple :=
  { streamReference :=
      st.server_url ++ "/Items/" ++ item.Id ++ "/Download?api_key=" ++ st.api_key
    drmConnector := st.drm_connector
    drmMode := st.drm_mode
    audioDevice := st.audio_device
    audioSpdif := st.audio_spdif
    trackArgs := [] }

/-- _play_with_tracks (lines 1511-1534): the Details-screen launch tuple.
Returns none when there is no detail item (the method returns without
exiting the app). -/
def play_with_tracks (st : NavState) : Option LaunchTuple :=
  match st.detail_item with
  | none => none
  | some item =>
    let stream_url :=
      st.server_url ++ "/Items/" ++ item.Id ++ "/Download?api_key=" ++ st.api_key
    let drm_connector := st.detail_drm_connector.getD st.drm_connector
    let drm_mode := st.detail_drm_mode.getD st.drm_mode
    let audio_device := st.detail_audio_device.getD st.audio_device
    let track_args :=
      (match st.selected_video_track with
       | some v => ["--vid=" ++ toString (v + 1)]
       | none => []) ++
      (match st.selected_audio_track with
       | some a => ["--aid=" ++ toString (a + 1)]
       | none => []) ++
      (match st.selected_subtitle_track with
       | some s => ["--sid=" ++ toString (s + 1)]
       | none => ["--sid=no"])
    some
      { streamReference := stream_url
        drmConnector := drm_connector
        drmMode := drm_mode
        audioDevice := audio_device
        audioSpdif := st.audio_spdif
        trackArgs := track_args }

/-- Modelled from the claim wording: one 1-based index argument per
selected track, and an explicit subtitle-disable argument when no
subtitle track is selected. -/
def expectedTrackArgs (svt sat sst : Option Nat) : List String :=
  (match svt with
   | some v => ["--vid=" ++ toString (v + 1)]
   | none => []) ++
  (match sat with
   | some a => ["--aid=" ++ toString (a + 1)]
   | none => []) ++
  (match sst with
   | some s => ["--sid=" ++ toString (s + 1)]
   | none => ["--sid=no"])

/-- A gateway on which every network call fails. -/
def failingGateway (msg : String) : Gateway :=
  { fetchLibraryItems := fun _ => .error msg
    fetchSeasons := fun _ => .error msg
    fetchEpisodes := fun _ _ => .error msg
    fetchCollectionItems := fun _ => .error msg
    fetchMediaInfo := fun _ => .error msg }

/-- A gateway on which every call succeeds with an empty list. -/
def emptyGateway : Gateway :=
  { fetchLibraryItems := fun _ => .ok []
    fetchSeasons := fun _ => .ok []
    fetchEpisodes := fun _ _ => .ok []
    fetchCollectionItems := fun _ => .ok []
    fetchMediaInfo := fun _ => .ok [] }

/-- The spec scenario for the Details launch tuple: PlaybackConfig
HDMI-A-1 / mode 3 / auto audio / ac3,dts passthrough, a movie on screen,
first video and audio tracks selected, no subtitle track. -/
def c1State : NavState :=
  { server_url := "http://jf"
    api_key := "k"
    drm_connector := "HDMI-A-1"
    drm_mode := "3"
    audio_device := ""
    audio_spdif := "ac3,dts"
    current_view := "details"
    detail_item := some { Id := "m1", Type_ := "Movie", Name := some "A Movie" }
    selected_video_track := some 0
    selected_audio_track := some 1
    selected_subtitle_track := none }

/-- A movie row used when entering the Details screen. -/
def c2Item : Item := { Id := "m2", Type_ := "Movie", Name := some "B Movie" }

/-- A gateway whose media-stream fetch returns one video and one audio
stream. -/
def c2Gateway : Gateway :=
  { fetchLibraryItems := fun _ => .error "down"
    fetchSeasons := fun _ => .error "down"
    fetchEpisodes := fun _ _ => .error "down"
    fetchCollectionItems := fun _ => .error "down"
    fetchMediaInfo := fun _ =>
      .ok [{ Type_ := "Video", Index := some 0 }, { Type_ := "Audio", Index := some 1 }] }

/-- A library screen carrying leftover Details selections from an earlier
visit. -/
def c2State : NavState :=
  { current_view := "library"
    selected_video_track := some 7
    detail_drm_connector := some "HDMI-A-2" }

/-- The series row whose seasons fetch is exercised. -/
def c6Series : Item := { Id := "s1", Type_ := "Series", Name := some "Some Series" }

/-- A Details screen on which a DRM override was chosen, about to be
back-navigated away from. -/
def c2BackState : NavState :=
  { current_view := "details"
    navigation_stack := [{ view := "library", title := "Jellyfin Selector" }]
    detail_item := some c2Item
    detail_media_streams := [{ Type_ := "Video", Index := some 0 }]
    selected_video_track := some 0
    detail_drm_connector := some "HDMI-A-2"
    detail_drm_mode := some "1"
    detail_audio_device := some "alsa/hdmi" }

/-- A partially watched episode: not played, but with progress. -/
def c4PartialItem : Item :=
  { Id := "e1", Type_ := "Episode"
    UserData := some { Played := false, PlayedPercentage := 50, PlayCount := 0 } }

/-- A fully watched episode with two recorded plays. -/
def c4PlayedItem : Item :=
  { Id := "e2", Type_ := "Episode"
    UserData := some { Played := true, PlayedPercentage := 0, PlayCount := 2 } }

/-- A watched movie in the canonical patched form. -/
def c4WatchedOnceItem : Item :=
  { Id := "m3", Type_ := "Movie"
    UserData := some { Played := true, PlayedPercentage := 0, PlayCount := 1 } }

/-- A watched movie used to instantiate the watch-marker theorem. -/
def c8Item : Item :=
  { Id := "m4", Type_ := "Movie", UserData := some { Played := true } }

/-- A seasons screen reached from the library, used to exercise a failing
back-navigation fetch. -/
def c6State : NavState :=
  { current_view := "seasons"
    title := "Some Series"
    navigation_stack := [{ view := "library", title := "Jellyfin Selector" }]
    all_items := [{ Id := "s1", Type_ := "Series", Name := some "Some Series" }]
    rows := .items [{ Id := "sea1", Type_ := "Season", Name := some "Season 1" }] }

/-- A settings screen with one library configured, used to exercise the
cycle-library action inside Settings. -/
def c7State : NavState :=
  { current_view := "settings"
    title := "Settings"
    navigation_stack := [{ view := "library", title := "Jellyfin Selector" }]
    libraries := [{ Id := "L1", Name := some "Movies" }] }

/-- One SPDIF toggle on the persisted string tracks one abstract set
toggle, checked over all 32 states and 5 codecs. -/
theorem toggle_spdif_step : ∀ (a b c d e : Bool) (i : Fin 5),
    toggle_spdif_codec (spdifJoin ⟨a, b, c, d, e⟩) (codecId i) =
      spdifJoin (SpdifSet.toggle ⟨a, b, c, d, e⟩ i) := by decide

/-- A toggle sequence on a canonically joined string tracks the abstract
set fold. -/
theorem applyToggles_spdifJoin (ops : List (Fin 5)) :
    ∀ S : SpdifSet, applyToggles (spdifJoin S) ops = spdifJoin (foldToggles S ops) := by
  induction ops with
  | nil => intro S; rfl
  | cons i ops ih =>
    intro S
    have h := toggle_spdif_step S.ac3 S.eac3 S.truehd S.dts S.dtshd i
    show applyToggles (toggle_spdif_codec (spdifJoin S) (codecId i)) ops = _
    rw [h]
    exact ih (S.toggle i)

/-- Decimal digit characters are never the letter n. -/
theorem digitChar_ne_n (m : Nat) (hm : m < 10) : Nat.digitChar m ≠ 'n' := by
  interval_cases m <;> decide

/-- No character produced by the base-10 digit expansion is the letter n. -/
theorem toDigitsCore_ne_n (f : Nat) :
    ∀ (n : Nat) (ds : List Char), (∀ c ∈ ds, c ≠ 'n') →
      ∀ c ∈ Nat.toDigitsCore 10 f n ds, c ≠ 'n' := by
  induction f with
  | zero => intro n ds hds c hc; exact hds c hc
  | succ f ih =>
    intro n ds hds c hc
    simp only [Nat.toDigitsCore] at hc
    split at hc
    · rcases List.mem_cons.mp hc with rfl | hmem
      · exact digitChar_ne_n _ (Nat.mod_lt _ (by norm_num))
      · exact hds c hmem
    · refine ih (n / 10) (Nat.digitChar (n % 10) :: ds) ?_ c hc
      intro d hd
      rcases List.mem_cons.mp hd with rfl | hmem
      · exact digitChar_ne_n _ (Nat.mod_lt _ (by norm_num))
      · exact hds d hmem

/-- The decimal string of a natural number is never the literal text no. -/
theorem natToString_ne_no (n : Nat) : toString n ≠ "no" := by
  intro h
  have h' : Nat.repr n = "no" := h
  have h2 : Nat.toDigits 10 n = ['n', 'o'] := congrArg String.data h'
  have h3 : ('n' : Char) ∈ Nat.toDigits 10 n := by rw [h2]; exact List.mem_cons_self _ _
  exact toDigitsCore_ne_n (n + 1) n [] (by intro c hc; cases hc) 'n' h3 rfl

/-- A subtitle argument never coincides with a video argument. -/
theorem append_sid_ne_append_vid (x y : String) : "--sid=" ++ x ≠ "--vid=" ++ y := by
  intro h
  have h2 := congrArg String.data h
  rw [String.data_append, String.data_append] at h2
  simp [show "--sid=".data = ['-', '-', 's', 'i', 'd', '='] from rfl,
        show "--vid=".data = ['-', '-', 'v', 'i', 'd', '='] from rfl] at h2

/-- A subtitle argument never coincides with an audio argument. -/
theorem append_sid_ne_append_aid (x y : String) : "--sid=" ++ x ≠ "--aid=" ++ y := by
  intro h
  have h2 := congrArg String.data h
  rw [String.data_append, String.data_append] at h2
  simp [show "--sid=".data = ['-', '-', 's', 'i', 'd', '='] from rfl,
        show "--aid=".data = ['-', '-', 'a', 'i', 'd', '='] from rfl] at h2

/-- A subtitle index argument never coincides with the subtitle disable
argument. -/
theorem sid_index_ne_sid_no (k : Nat) : "--sid=" ++ toString (k + 1) ≠ "--sid=no" := by
  intro h
  have h2 := congrArg String.data h
  rw [String.data_append] at h2
  simp [show "--sid=".data = ['-', '-', 's', 'i', 'd', '='] from rfl,
        show "--sid=no".data = ['-', '-', 's', 'i', 'd', '=', 'n', 'o'] from rfl] at h2
  exact natToString_ne_no (k + 1) (String.ext h2)

/-- C1: the Details play action emits the launch tuple with the
DetailOverride value for drm connector, drm mode and audio device when
that override is set and the PlaybackConfig value otherwise; its track
arguments carry the selected 0-based track index plus one for each
selected track, and when no subtitle track is selected they carry the
subtitle-disable argument and no subtitle-index argument. -/
theorem detail_launch_tuple (st : NavState) (item : Item)
    (h : st.detail_item = some item) :
    play_with_tracks st = some
      { streamReference :=
          st.server_url ++ "/Items/" ++ item.Id ++ "/Download?api_key=" ++ st.api_key
        drmConnector := st.detail_drm_connector.getD st.drm_connector
        drmMode := st.detail_drm_mode.getD st.drm_mode
        audioDevice := st.detail_audio_device.getD st.audio_device
        audioSpdif := st.audio_spdif
        trackArgs := expectedTrackArgs st.selected_video_track st.selected_audio_track
          st.selected_subtitle_track } ∧
    (st.selected_subtitle_track = none →
      "--sid=no" ∈ expectedTrackArgs st.selected_video_track st.selected_audio_track none ∧
      ∀ k : Nat, ("--sid=" ++ toString (k + 1)) ∉
        expectedTrackArgs st.selected_video_track st.selected_audio_track none) := by
  constructor
  · simp [play_with_tracks, h, expectedTrackArgs]
  · intro hs
    constructor
    · rcases st.selected_video_track with _ | v <;>
        rcases st.selected_audio_track with _ | a <;>
          simp [expectedTrackArgs]
    · intro k
      rcases st.selected_video_track with _ | v <;>
        rcases st.selected_audio_track with _ | a <;>
          simp [expectedTrackArgs, append_sid_ne_append_vid, append_sid_ne_append_aid,
            sid_index_ne_sid_no]

/-- C1 witness: the spec scenario, with PlaybackConfig HDMI-A-1 / 3 /
auto / ac3,dts and no subtitle selected, emits exactly the expected
tuple. -/
theorem detail_launch_tuple_witness :
    play_with_tracks c1State = some
      { streamReference := "http://jf/Items/m1/Download?api_key=k"
        drmConnector := "HDMI-A-1"
        drmMode := "3"
        audioDevice := ""
        audioSpdif := "ac3,dts"
        trackArgs := ["--vid=1", "--aid=2", "--sid=no"] } ∧
    "--sid=no" ∈ ["--vid=1", "--aid=2", "--sid=no"] := by
  have h := detail_launch_tuple c1State { Id := "m1", Type_ := "Movie", Name := some "A Movie" } rfl
  constructor
  · rw [h.1]; rfl
  · exact (h.2 rfl).1

/-- C2 counterexample: entering Details with a video stream present
leaves the video-track override set, not unset, and back-navigating out
of Details keeps the DRM connector override. -/
theorem detail_override_reset_counterexample :
    (action_show_details c2Gateway c2State (some c2Item)).selected_video_track ≠ none ∧
    (action_back c2Gateway c2BackState).detail_drm_connector ≠ none := by decide

/-- C2 amended: entering Details resets the DRM/audio overrides and the
subtitle selection to unset, and sets the video and audio selections to
the first video/audio stream index of the freshly fetched list,
independently of any previous selections; back-navigation discards only
the detail item and the fetched media-stream list, leaving the six
override fields to be reset by the next entry. -/
theorem detail_override_reset_amended :
    (∀ (gw : Gateway) (st : NavState) (item : Item) (streams : List MediaStream),
      pyStartsWith st.current_view "settings" = false →
      st.current_view ≠ "details" →
      (item.Type_ = "Movie" ∨ item.Type_ = "Episode") →
      item.Id ≠ "" →
      gw.fetchMediaInfo item.Id = .ok streams →
      ((action_show_details gw st (some item)).detail_drm_connector = none ∧
       (action_show_details gw st (some item)).detail_drm_mode = none ∧
       (action_show_details gw st (some item)).detail_audio_device = none ∧
       (action_show_details gw st (some item)).selected_subtitle_track = none ∧
       (action_show_details gw st (some item)).selected_video_track =
         (preselectTracks streams).1 ∧
       (action_show_details gw st (some item)).selected_audio_track =
         (preselectTracks streams).2 ∧
       (action_show_details gw st (some item)).current_view = "details")) ∧
    (∀ (gw : Gateway) (st : NavState) (prev : Frame) (rest : List Frame),
      st.navigation_stack = prev :: rest →
      ((action_back gw st).detail_item = none ∧
       (action_back gw st).detail_media_streams = [] ∧
       (action_back gw st).detail_drm_connector = st.detail_drm_connector ∧
       (action_back gw st).detail_drm_mode = st.detail_drm_mode ∧
       (action_back gw st).detail_audio_device = st.detail_audio_device ∧
       (action_back gw st).selected_video_track = st.selected_video_track ∧
       (action_back gw st).selected_audio_track = st.selected_audio_track ∧
       (action_back gw st).selected_subtitle_track = st.selected_subtitle_track)) := by
  constructor
  · intro gw st item streams h1 h2 h3 h4 h5
    rcases h3 with h3 | h3 <;>
      simp [action_show_details, h1, h2, h3, h4, h5]
  · intro gw st prev rest hstack
    simp only [action_back, hstack]
    repeat' split
    all_goals simp

/-- C2 amended witness: a concrete Details entry and a concrete Details
exit behave as the amended claim states. -/
theorem detail_override_reset_amended_witness :
    (action_show_details c2Gateway c2State (some c2Item)).selected_subtitle_track = none ∧
    (action_show_details c2Gateway c2State (some c2Item)).detail_drm_connector = none ∧
    (action_back c2Gateway c2BackState).detail_item = none ∧
    (action_back c2Gateway c2BackState).detail_media_streams = [] := by
  have h1 := detail_override_reset_amended.1 c2Gateway c2State c2Item
    [{ Type_ := "Video", Index := some 0 }, { Type_ := "Audio", Index := some 1 }]
    rfl (by decide) (Or.inl rfl) (by decide) rfl
  have h2 := detail_override_reset_amended.2 c2Gateway c2BackState
    { view := "library", title := "Jellyfin Selector" } [] rfl
  exact ⟨h1.2.2.2.1, h1.1, h2.1, h2.2.1⟩

/-- C3: toggle-watched computes isPartiallyWatched as not played and
positive progress or play count, and the new played state as the negation
of played-or-partial; equivalently the new state is false exactly when
the entity was not fully unwatched. -/
theorem toggle_watched_policy :
    ∀ ud : UserData,
      newPlayedState ud =
        !(ud.Played ||
          (!ud.Played && (decide (0 < ud.PlayedPercentage) || decide (0 < ud.PlayCount)))) ∧
      (newPlayedState ud = false ↔
        (ud.Played = true ∨ 0 < ud.PlayedPercentage ∨ 0 < ud.PlayCount)) := by
  intro ud
  refine ⟨rfl, ?_⟩
  rcases ud with ⟨p, pct, cnt, u⟩
  cases p <;> simp [newPlayedState]
  rcases lt_or_le 0 pct with h | h
  · simp [h.not_le, h]
  · simp [h, h.not_lt]

/-- C4 counterexample: double-toggling a partially watched episode does
not restore played, and double-toggling a played episode with two plays
does not restore playCount. -/
theorem toggle_watched_twice_counterexample :
    ((toggle_watched_leaf (toggle_watched_leaf c4PartialItem)).UserData.getD {}).Played ≠
      (c4PartialItem.UserData.getD {}).Played ∧
    ((toggle_watched_leaf (toggle_watched_leaf c4PlayedItem)).UserData.getD {}).PlayCount ≠
      (c4PlayedItem.UserData.getD {}).PlayCount := by decide

/-- C4 amended: double-toggling a leaf entity restores played and
playCount exactly when the initial watch state is already in the
normalized form the patch produces: played with playCount one, or fully
unwatched with playCount zero. -/
theorem toggle_watched_twice_amended (item : Item)
    (_hkind : item.Type_ = "Movie" ∨ item.Type_ = "Episode")
    (h : ((item.UserData.getD {}).Played = true ∧ (item.UserData.getD {}).PlayCount = 1) ∨
         ((item.UserData.getD {}).Played = false ∧
          (item.UserData.getD {}).PlayedPercentage ≤ 0 ∧
          (item.UserData.getD {}).PlayCount = 0)) :
    ((toggle_watched_leaf (toggle_watched_leaf item)).UserData.getD {}).Played =
      (item.UserData.getD {}).Played ∧
    ((toggle_watched_leaf (toggle_watched_leaf item)).UserData.getD {}).PlayCount =
      (item.UserData.getD {}).PlayCount := by
  rcases hud : item.UserData.getD {} with ⟨p, pct, cnt, u⟩
  rw [hud] at h
  have hdd : (toggle_watched_leaf (toggle_watched_leaf item)).UserData.getD {} =
      toggleWatchedLeafPatch (toggleWatchedLeafPatch ⟨p, pct, cnt, u⟩) := by
    simp [toggle_watched_leaf, hud]
  rw [hdd]
  rcases h with ⟨hp, hc⟩ | ⟨hp, hpct, hc⟩
  · subst hp; subst hc
    simp [toggleWatchedLeafPatch, newPlayedState]
  · subst hp; subst hc
    simp [toggleWatchedLeafPatch, newPlayedState, decide_eq_false hpct.not_lt]

/-- C4 amended witness: a watched movie with one play returns to its
original played and playCount after two toggles. -/
theorem toggle_watched_twice_amended_witness :
    ((toggle_watched_leaf (toggle_watched_leaf c4WatchedOnceItem)).UserData.getD {}).Played =
      (c4WatchedOnceItem.UserData.getD {}).Played ∧
    ((toggle_watched_leaf (toggle_watched_leaf c4WatchedOnceItem)).UserData.getD {}).PlayCount =
      (c4WatchedOnceItem.UserData.getD {}).PlayCount :=
  toggle_watched_twice_amended c4WatchedOnceItem (Or.inl rfl) (Or.inl ⟨rfl, rfl⟩)

/-- C5: starting from the empty persisted string, any toggle sequence
yields the comma-join of exactly the enabled codec identifiers in
canonical table order; that join is duplicate-free and agrees with the
canonical table filtered to the enabled set; and the concrete sequence
eac3, ac3, dts then ac3 again yields the canonical join of eac3 and
dts. -/
theorem spdif_toggle_set_canonical :
    (∀ ops : List (Fin 5), applyToggles "" ops = spdifJoin (foldToggles {} ops)) ∧
    (∀ a b c d e : Bool,
        (((List.finRange 5).filter (SpdifSet.mem ⟨a, b, c, d, e⟩)).map codecId).Nodup ∧
        ((List.finRange 5).filter (SpdifSet.mem ⟨a, b, c, d, e⟩)).map codecId =
          SPDIF_CODECS.filter
            (fun cod =>
              (((List.finRange 5).filter (SpdifSet.mem ⟨a, b, c, d, e⟩)).map codecId).contains
                cod)) ∧
    applyToggles "" [1, 0, 3, 0] = "eac3,dts" := by
  refine ⟨fun ops => applyToggles_spdifJoin ops {}, by decide, by decide⟩

/-- C6 counterexample: a failing fetch during back-navigation from the
seasons screen still switches the screen and pops the stack. -/
theorem fetch_failure_counterexample :
    (action_back (failingGateway "net down") c6State).current_view ≠ c6State.current_view ∧
    (action_back (failingGateway "net down") c6State).navigation_stack ≠
      c6State.navigation_stack := by decide

/-- C6 amended: a failing fetch during forward navigation into seasons
changes only the status line; a failing fetch during back-navigation
still pops the frame and restores screen and title, leaving the row list
as previously rendered for a seasons target and re-rendering the cached
root list for a library target, with the status line reporting the
error. -/
theorem fetch_failure_amended :
    (∀ (gw : Gateway) (st : NavState) (series : Item) (e : String),
      gw.fetchSeasons series.Id = .error e →
      navigate_to_seasons gw st series = { st with sub_title := "Error loading seasons: " ++ e }) ∧
    (∀ (gw : Gateway) (st : NavState) (prev : Frame) (rest : List Frame) (e : String),
      st.navigation_stack = prev :: rest → prev.view = "library" →
      gw.fetchLibraryItems st.current_library_index = .error e →
      action_back gw st =
        { st with
          navigation_stack := rest
          current_view := "library"
          title := prev.title
          detail_item := none
          detail_media_streams := []
          current_series_id := none
          current_series_name := none
          current_season_id := none
          current_collection_id := none
          current_collection_name := none
          rows := populate_list st.all_items
          sub_title := "Refresh failed: " ++ e }) ∧
    (∀ (gw : Gateway) (st : NavState) (prev : Frame) (rest : List Frame)
        (sid e : String),
      st.navigation_stack = prev :: rest → prev.view = "seasons" →
      frameGet prev.series_id = some sid → sid ≠ "" →
      gw.fetchSeasons sid = .error e →
      action_back gw st =
        { st with
          navigation_stack := rest
          current_view := "seasons"
          title := prev.title
          detail_item := none
          detail_media_streams := []
          current_series_id := some sid
          current_series_name := frameGet prev.series_name
          current_season_id := none
          sub_title := "Error: " ++ e }) := by
  refine ⟨?_, ?_, ?_⟩
  · intro gw st series e hfetch
    simp [navigate_to_seasons, hfetch]
  · intro gw st prev rest e hstack hview hfetch
    simp [action_back, hstack, hview, hfetch, populate_list]
  · intro gw st prev rest sid e hstack hview hsid hne hfetch
    simp [action_back, hstack, hview, hsid, hne, hfetch, isTruthy]

/-- C6 amended witness: concrete failing fetches during a forward and a
back transition behave as the amended claim states. -/
theorem fetch_failure_amended_witness :
    navigate_to_seasons (failingGateway "net down") c6State c6Series =
      { c6State with sub_title := "Error loading seasons: net down" } ∧
    (action_back (failingGateway "net down") c6State).current_view = "library" ∧
    (action_back (failingGateway "net down") c6State).sub_title = "Refresh failed: net down" := by
  have h1 := fetch_failure_amended.1 (failingGateway "net down") c6State c6Series "net down" rfl
  have h2 := fetch_failure_amended.2.1 (failingGateway "net down") c6State
    { view := "library", title := "Jellyfin Selector" } [] "net down" rfl rfl rfl
  exact ⟨h1, by rw [h2]; try decide, by rw [h2]; try decide⟩

/-- C7 counterexample: cycle-library is performed on the Settings screen
as well, resetting the stack and forcing the library view. -/
theorem cycle_library_guard_counterexample :
    action_cycle_library emptyGateway c7State ≠ c7State ∧
    (action_cycle_library emptyGateway c7State).current_view = "library" ∧
    (action_cycle_library emptyGateway c7State).navigation_stack = [] := by decide

/-- C7 amended: whenever the library list is nonempty, cycle-library is
performed on any screen, Settings and Details included; it forces the
view to the library, empties the stack when coming from a non-library
screen, advances the index modulo the library count, and refetches the
list on success. -/
theorem cycle_library_amended (gw : Gateway) (st : NavState) (h : st.libraries ≠ []) :
    (action_cycle_library gw st).current_view = "library" ∧
    (action_cycle_library gw st).navigation_stack =
      (if st.current_view = "library" then st.navigation_stack else []) ∧
    (action_cycle_library gw st).current_library_index =
      (st.current_library_index + 1) % st.libraries.length ∧
    (∀ items,
      gw.fetchLibraryItems ((st.current_library_index + 1) % st.libraries.length) = .ok items →
      (action_cycle_library gw st).all_items = items ∧
      (action_cycle_library gw st).rows = populate_list items) := by
  have hne : st.libraries.isEmpty = false := by
    simp [List.isEmpty_iff, h]
  by_cases hv : st.current_view = "library" <;>
    rcases hfl : gw.fetchLibraryItems ((st.current_library_index + 1) % st.libraries.length)
      with e | items <;>
      simp [action_cycle_library, hne, hv, hfl, populate_list]

/-- C7 amended witness: cycling from the Settings screen with one
library. -/
theorem cycle_library_amended_witness :
    (action_cycle_library emptyGateway c7State).current_view = "library" ∧
    (action_cycle_library emptyGateway c7State).navigation_stack = [] ∧
    (action_cycle_library emptyGateway c7State).current_library_index = 0 ∧
    (action_cycle_library emptyGateway c7State).all_items = [] := by
  have h := cycle_library_amended emptyGateway c7State (by decide)
  refine ⟨h.1, ?_, ?_, (h.2.2.2 [] rfl).1⟩
  · rw [h.2.1]; try decide
  · rw [h.2.2.1]; try decide

/-- C8: for Movie and Episode entities the watch marker is the watched
glyph exactly when played, the partial glyph exactly when not played but
with positive progress or play count, and the unwatched glyph otherwise,
in both character sets. -/
theorem watch_marker_selection (tty : Bool) (item : Item)
    (_hkind : item.Type_ = "Movie" ∨ item.Type_ = "Episode") :
    (playedIndicator (getChars tty) item = (getChars tty).watchedChar ↔
      (item.UserData.getD {}).Played = true) ∧
    (playedIndicator (getChars tty) item = (getChars tty).partialChar ↔
      ((item.UserData.getD {}).Played = false ∧
        (0 < (item.UserData.getD {}).PlayedPercentage ∨
         0 < (item.UserData.getD {}).PlayCount))) ∧
    (((item.UserData.getD {}).Played = false ∧
       ¬(0 < (item.UserData.getD {}).PlayedPercentage ∨
         0 < (item.UserData.getD {}).PlayCount)) →
      playedIndicator (getChars tty) item = (getChars tty).unwatchedChar) := by
  rcases hud : item.UserData.getD {} with ⟨p, pct, cnt, u⟩
  have hind : playedIndicator (getChars tty) item =
      (if p then (getChars tty).watchedChar
       else if 0 < pct ∨ 0 < cnt then (getChars tty).partialChar
       else (getChars tty).unwatchedChar) := by
    simp [playedIndicator, hud]
  cases tty <;> cases p <;> by_cases hpc : (0 < pct ∨ 0 < cnt) <;>
    simp [hind, hpc] <;> decide

/-- C8 witness: a played movie renders the watched glyph in the Unicode
character set. -/
theorem watch_marker_selection_witness :
    playedIndicator (getChars false) c8Item = (getChars false).watchedChar :=
  (watch_marker_selection false c8Item (Or.inl rfl)).1.mpr rfl

/-- C9: with an empty navigation stack the back action is a no-op on the
whole navigator state. -/
theorem back_empty_stack_noop (gw : Gateway) (st : NavState)
    (h : st.navigation_stack = []) : action_back gw st = st := by
  unfold action_back
  rw [h]

/-- C9 witness: back on the freshly initialized state changes nothing. -/
theorem back_empty_stack_noop_witness :
    action_back emptyGateway {} = {} :=
  back_empty_stack_noop emptyGateway {} rfl

/-- C10: the optimistic local patch of toggle-watched always writes
playedPercentage zero and playCount one when the new state is watched and
zero when it is unwatched, discarding the previous values. -/
theorem toggle_watched_leaf_normalizes :
    ∀ item : Item,
      ((toggle_watched_leaf item).UserData.getD {}).PlayedPercentage = 0 ∧
      ((toggle_watched_leaf item).UserData.getD {}).PlayCount =
        (if ((toggle_watched_leaf item).UserData.getD {}).Played then 1 else 0) := by
  intro item
  exact ⟨rfl, rfl⟩

end Jvuey
